import Mathlib

/-!
Shallow embedding of `src/hamcrest/core/core/raises.py` (PyHamcrest).

The file defines, in order: the exception model (Python exceptions are
runtime objects carrying their class ancestry, a `str()` rendering and a
`repr()` rendering), the `Raises` matcher state, its methods
(`_matches`, `_call_function`, `describe_to`, `describe_mismatch`,
`describe_match`), the `raises` factory, and the `DeferredCallable` /
`calling` pair.

Python side effects are made explicit: a candidate callable is a state
transformer `σ → σ × Option Exc` whose `Option Exc` component is the
exception it raises (if any).  A method that can let an exception escape
returns a `POut` value; `POut.raised` models an uncaught exception
propagating to the caller.  The description sink is a list of the strings
passed to `append_text`, in order.  `re.search` is an external collaborator
(the Python `re` module) and is passed in as a parameter
`search : String → String → Bool`, where `search p s = true` models
`re.search(p, s) is not None`.
-/

set_option autoImplicit false

namespace PyHamcrest

/-- Identity of the Python built-in `BaseException` class in the class-id
space of this model.  Every object that can be raised in Python is an
instance of `BaseException`; the interpreter enforces this at `raise`. -/
def BaseExceptionId : Nat := 0

/-- Identity of the Python built-in `TypeError` class (raised by the runtime
when a non-callable object is called). -/
def TypeErrorId : Nat := 1

/-- A Python exception class, as a first-class value: its identity and the
text produced by `"%s" % cls`. -/
structure ExcType where
  id : Nat
  str : String

/-- A Python exception instance.  `kinds` lists the ids of every class the
instance is an instance of (its class and all ancestors), `msg` is
`str(e)`, `reprStr` is `repr(e)`, `typeStr` is `"%s" % type(e)`.
`base_mem` records the language guarantee that every raised object is an
instance of `BaseException`. -/
structure Exc where
  kinds : List Nat
  msg : String
  reprStr : String
  typeStr : String
  base_mem : BaseExceptionId ∈ kinds

/-- Test `isinstance(e, t)` of Python, for an exception instance and a class. -/
def isinstance (e : Exc) (t : ExcType) : Bool :=
  e.kinds.contains t.id

/-- Outcome of running a Python method: either a normal return value or an
exception that escaped the method uncaught. -/
inductive POut (α : Type) where
  | ok (val : α)
  | raised (exc : Exc)

/-- Field `self.function` of the matcher: `None`, a weak reference whose
referent has been collected, or a weak reference resolving to the object
with the given identity. -/
inductive FuncRef where
  | noRef
  | deadRef
  | liveRef (id : Nat)
deriving Repr, DecidableEq

/-- Result of `function = None if self.function is None else self.function()`
in `describe_mismatch`: the identity the stored reference resolves to. -/
def FuncRef.deref : FuncRef → Option Nat
  | .noRef => none
  | .deadRef => none
  | .liveRef i => some i

/-- State of a `Raises` matcher instance (`Raises.__init__`). -/
structure Raises where
  pattern : Option String
  expected : ExcType
  actual : Option Exc
  function : FuncRef

/-- Constructor `Raises(expected, pattern)`: `actual` and `function` start as `None`. -/
def Raises.init (expected : ExcType) (pattern : Option String) : Raises :=
  { pattern := pattern, expected := expected, actual := none, function := FuncRef.noRef }

/-- Factory function `raises(exception, pattern)`. -/
def raises (exception : ExcType) (pattern : Option String) : Raises :=
  Raises.init exception pattern

/-- A candidate `item` handed to the matcher: either a non-callable object
(with its `"%s" % item` rendering) or a callable object with an identity
(for `is` comparison and `weakref.ref`), a state-transforming body, and
its `"%s" % item` rendering. -/
inductive Item (σ : Type) where
  | notCallable (str : String)
  | callable (id : Nat) (run : σ → σ × Option Exc) (str : String)

/-- The single-quote character, used in CPython renderings. -/
def sq : String := (Char.ofNat 39).toString

/-- Exception raised by the CPython runtime when a non-callable object is
called.  It is an instance of `TypeError` (hence of `BaseException`); the
message text approximates the CPython rendering, which quotes the type name. -/
def notCallableError (str : String) : Exc :=
  { kinds := [BaseExceptionId, TypeErrorId]
    msg := sq ++ str ++ sq ++ " object is not callable"
    reprStr := "TypeError(" ++ sq ++ str ++ sq ++ " object is not callable)"
    typeStr := "<class " ++ sq ++ "TypeError" ++ sq ++ ">"
    base_mem := List.mem_cons_self _ _ }

/-- Invocation `function()` of Python: run the body of a callable item; calling a
non-callable raises `TypeError`. -/
def Item.invoke {σ : Type} : Item σ → σ → σ × Option Exc
  | .notCallable str, s => (s, some (notCallableError str))
  | .callable _ run _, s => run s

/-- Method `Raises._call_function` (raises.py lines 29-40): reset `self.actual`
to `None`, call `function()` inside `try ... except BaseException`; when
an exception is caught store it in `self.actual` and return whether it is
an instance of the expected class and (if a pattern was given) whether
`re.search(pattern, str(actual))` succeeded.  Returns the updated matcher
state, the updated world state, and the method outcome. -/
def Raises._call_function (search : String → String → Bool) (m : Raises) {σ : Type}
    (function : Item σ) (s : σ) : Raises × σ × POut Bool :=
  let m0 := { m with actual := none }
  match Item.invoke function s with
  | (s', none) => (m0, s', POut.ok false)
  | (s', some e) =>
    if e.kinds.contains BaseExceptionId then
      let m1 := { m0 with actual := some e }
      if isinstance e m1.expected then
        match m1.pattern with
        | some p => (m1, s', POut.ok (search p e.msg))
        | none => (m1, s', POut.ok true)
      else (m1, s', POut.ok false)
    else (m0, s', POut.raised e)

/-- Method `Raises._matches` (raises.py lines 22-27): non-callables match nothing,
without being invoked; otherwise store `ref(function)` and delegate to
`_call_function`. -/
def Raises._matches (search : String → String → Bool) (m : Raises) {σ : Type}
    (function : Item σ) (s : σ) : Raises × σ × POut Bool :=
  match function with
  | .notCallable _ => (m, s, POut.ok false)
  | .callable id _ _ =>
    Raises._call_function search { m with function := FuncRef.liveRef id } function s

/-- Method `Raises.describe_to` (raises.py lines 42-43). -/
def Raises.describe_to (m : Raises) (d : List String) : List String :=
  d ++ ["Expected a callable raising " ++ m.expected.str]

/-- Tail of `Raises.describe_mismatch` (raises.py lines 56-68): report on
`self.actual`.  `None` means no exception was raised; an instance of the
expected class is reported only when a pattern was supplied (the pattern
message plus the exception message); any other exception is reported as
raised instead. -/
def Raises.mismatchTail (m : Raises) {σ : Type} (s : σ) (d : List String) :
    Raises × σ × List String × POut Unit :=
  match m.actual with
  | none => (m, s, d ++ ["No exception raised."], POut.ok ())
  | some e =>
    if isinstance e m.expected then
      match m.pattern with
      | some p =>
        (m, s, d ++ ["Correct assertion type raised, but the expected pattern (\"" ++ p
            ++ "\") not found. ",
          "Exception message was: \"" ++ e.msg ++ "\""], POut.ok ())
      | none => (m, s, d, POut.ok ())
    else
      (m, s, d ++ [e.reprStr ++ " of type " ++ e.typeStr ++ " was raised instead"], POut.ok ())

/-- Method `Raises.describe_mismatch` (raises.py lines 45-68): a non-callable is
reported as not callable; otherwise, if the stored weak reference does not
resolve to the identical object, store a fresh reference and re-invoke via
`_call_function`, and `return` early when that call returns `False`
(`if not self._call_function(item): return`); finally report from
`self.actual`. -/
def Raises.describe_mismatch (search : String → String → Bool) (m : Raises) {σ : Type}
    (item : Item σ) (s : σ) (d : List String) : Raises × σ × List String × POut Unit :=
  match item with
  | .notCallable str => (m, s, d ++ [str ++ " is not callable"], POut.ok ())
  | .callable id _ _ =>
    if FuncRef.deref m.function = some id then
      Raises.mismatchTail m s d
    else
      match Raises._call_function search { m with function := FuncRef.liveRef id } item s with
      | (m2, s2, POut.ok b) =>
        if b then Raises.mismatchTail m2 s2 d
        else (m2, s2, d, POut.ok ())
      | (m2, s2, POut.raised e) => (m2, s2, d, POut.raised e)

/-- Rendering `"%r" % self.actual` of Python (`repr(None)` is `None`). -/
def reprOfActual : Option Exc → String
  | none => "None"
  | some e => e.reprStr

/-- Rendering `"%s" % type(self.actual)` of Python. -/
def typeStrOfActual : Option Exc → String
  | none => "<class " ++ sq ++ "NoneType" ++ sq ++ ">"
  | some e => e.typeStr

/-- Method `Raises.describe_match` (raises.py lines 70-74): unconditionally
re-invoke via `_call_function`, then report `repr` and type of
`self.actual`. -/
def Raises.describe_match (search : String → String → Bool) (m : Raises) {σ : Type}
    (item : Item σ) (s : σ) (d : List String) : Raises × σ × List String × POut Unit :=
  match Raises._call_function search m item s with
  | (m2, s2, POut.ok _) =>
    (m2, s2, d ++ [reprOfActual m2.actual ++ " of type " ++ typeStrOfActual m2.actual
      ++ " was raised."], POut.ok ())
  | (m2, s2, POut.raised e) => (m2, s2, d, POut.raised e)

/-- Class `DeferredCallable` (raises.py lines 96-108): a target function plus
recorded positional arguments (a list) and keyword arguments (a mapping,
modelled as an association list).  The target is a state transformer that
receives both argument collections and may raise. -/
structure DeferredCallable (σ α : Type) where
  func : List α → List (String × α) → σ → σ × Option Exc
  args : List α
  kwargs : List (String × α)

/-- Constructor `DeferredCallable.__init__`: `args` starts as `()` and `kwargs` as an empty mapping. -/
def DeferredCallable.init {σ α : Type}
    (func : List α → List (String × α) → σ → σ × Option Exc) : DeferredCallable σ α :=
  { func := func, args := [], kwargs := [] }

/-- Method `DeferredCallable.__call__`: `self.func(*self.args, **self.kwargs)`;
whatever the target raises propagates unmodified. -/
def DeferredCallable.call {σ α : Type} (d : DeferredCallable σ α) (s : σ) : σ × Option Exc :=
  d.func d.args d.kwargs s

/-- Method `DeferredCallable.with_args`: record the arguments and return `self`. -/
def DeferredCallable.with_args {σ α : Type} (d : DeferredCallable σ α)
    (args : List α) (kwargs : List (String × α)) : DeferredCallable σ α :=
  { d with args := args, kwargs := kwargs }

/-- Factory function `calling(func)` (raises.py lines 111-122). -/
def calling {σ α : Type}
    (func : List α → List (String × α) → σ → σ × Option Exc) : DeferredCallable σ α :=
  DeferredCallable.init func

/-- Helper for `substrFound`: does `p` occur as a contiguous sublist of the
second argument? -/
def charsContain (p : List Char) : List Char → Bool
  | [] => p.isEmpty
  | c :: rest => p.isPrefixOf (c :: rest) || charsContain p rest

/-- Concrete stand-in for `re.search` used by concrete instances:
`substrFound p s` holds iff `p` occurs verbatim in `s` (a verbatim
occurrence is a regex match whenever `p` has no metacharacters). -/
def substrFound (p s : String) : Bool :=
  charsContain p.toList s.toList

/-- Concrete exception class for instance checks (think `ValueError`). -/
def wType : ExcType := { id := 7, str := "ValueError" }

/-- Concrete exception of kind `wType` whose text contains `"bad"`. -/
def wBadExc : Exc :=
  { kinds := [BaseExceptionId, 7], msg := "this is bad input",
    reprStr := "ValueError: this is bad input", typeStr := "ValueError",
    base_mem := List.mem_cons_self _ _ }

/-- Concrete exception of kind `wType` whose text does not contain `"bad"`. -/
def wOkExc : Exc :=
  { kinds := [BaseExceptionId, 7], msg := "ok input",
    reprStr := "ValueError: ok input", typeStr := "ValueError",
    base_mem := List.mem_cons_self _ _ }

/-- Concrete exception of a kind unrelated to `wType` (think `TypeError`). -/
def wWrongExc : Exc :=
  { kinds := [BaseExceptionId, 9], msg := "x",
    reprStr := "TypeError: x", typeStr := "TypeError",
    base_mem := List.mem_cons_self _ _ }

/-! Helper lemmas shared by the claim theorems. -/

/-- Every exception value satisfies the `except BaseException` test. -/
theorem base_contains (e : Exc) : e.kinds.contains BaseExceptionId = true :=
  List.elem_eq_true_of_mem e.base_mem

/-- Canonical form of `_call_function`: the candidate is invoked once, the
raised exception (if any) is always caught, `actual` is reset and then set
to exactly that exception, and the returned boolean is the kind test
combined with the pattern test. -/
theorem call_function_eq (search : String → String → Bool) (m : Raises) {σ : Type}
    (item : Item σ) (s : σ) :
    Raises._call_function search m item s =
      match Item.invoke item s with
      | (s', none) => ({ m with actual := none }, s', POut.ok false)
      | (s', some e) =>
        ({ m with actual := some e }, s',
          POut.ok (if isinstance e m.expected then
              match m.pattern with
              | some p => search p e.msg
              | none => true
            else false)) := by
  unfold Raises._call_function
  rcases hin : Item.invoke item s with ⟨s', oe⟩
  cases oe with
  | none => rfl
  | some e =>
    simp only [base_contains e, if_true]
    by_cases hi : isinstance e m.expected
    · cases hp : m.pattern <;> simp [hi, hp]
    · simp [hi]

/-- The reporting tail of `describe_mismatch` leaves the matcher state and
the world state untouched and never raises. -/
theorem mismatchTail_frame (m : Raises) {σ : Type} (s : σ) (d : List String) :
    (Raises.mismatchTail m s d).1 = m ∧ (Raises.mismatchTail m s d).2.1 = s ∧
      (Raises.mismatchTail m s d).2.2.2 = POut.ok () := by
  unfold Raises.mismatchTail
  rcases m.actual with _ | e
  · exact ⟨rfl, rfl, rfl⟩
  · by_cases hi : isinstance e m.expected
    · cases hp : m.pattern <;> simp [hi, hp]
    · simp [hi]

/-- Method `_call_function` never lets an exception escape: its outcome is always
`POut.ok` (the `except BaseException` clause catches every raisable
value). -/
theorem call_function_no_raise (search : String → String → Bool) (m : Raises) {σ : Type}
    (item : Item σ) (s : σ) :
    ∃ m' s' b, Raises._call_function search m item s = (m', s', POut.ok b) := by
  rw [call_function_eq]
  rcases hin : Item.invoke item s with ⟨s', oe⟩
  cases oe with
  | none => exact ⟨_, _, _, rfl⟩
  | some e => exact ⟨_, _, _, rfl⟩

/-- After `_call_function`, `actual` holds exactly the exception raised by
this invocation (or `none` when it raised nothing). -/
theorem call_function_actual (search : String → String → Bool) (m : Raises) {σ : Type}
    (item : Item σ) (s : σ) :
    (Raises._call_function search m item s).1.actual = (Item.invoke item s).2 := by
  rw [call_function_eq]
  rcases hin : Item.invoke item s with ⟨s', oe⟩
  cases oe <;> rfl

/-- Canonical form of `_matches` on a callable candidate that raises
nothing: store `ref(function)`, invoke once, reset `actual`, fail. -/
theorem matches_callable_none (search : String → String → Bool) (m : Raises) {σ : Type}
    (id : Nat) (run : σ → σ × Option Exc) (str : String) {s s' : σ}
    (hrs : run s = (s', none)) :
    Raises._matches search m (Item.callable id run str) s =
      ({ m with function := FuncRef.liveRef id, actual := none }, s', POut.ok false) := by
  simp only [Raises._matches]
  rw [call_function_eq]
  have hinv : Item.invoke (Item.callable id run str) s = run s := rfl
  rw [hinv, hrs]

/-- Canonical form of `_matches` on a callable candidate that raises `e`:
store `ref(function)`, invoke once, record `e` in `actual`, and return the
kind/pattern verdict. -/
theorem matches_callable_some (search : String → String → Bool) (m : Raises) {σ : Type}
    (id : Nat) (run : σ → σ × Option Exc) (str : String) {s s' : σ} {e : Exc}
    (hrs : run s = (s', some e)) :
    Raises._matches search m (Item.callable id run str) s =
      ({ m with function := FuncRef.liveRef id, actual := some e }, s',
        POut.ok (if isinstance e m.expected then
            match m.pattern with
            | some p => search p e.msg
            | none => true
          else false)) := by
  simp only [Raises._matches]
  rw [call_function_eq]
  have hinv : Item.invoke (Item.callable id run str) s = run s := rfl
  rw [hinv, hrs]

/-- When the stored weak reference resolves to the identical candidate,
`describe_mismatch` performs no invocation and goes straight to the
reporting tail. -/
theorem describe_mismatch_same (search : String → String → Bool) (m : Raises) {σ : Type}
    (id : Nat) (run : σ → σ × Option Exc) (str : String) (s : σ) (d : List String)
    (hsame : FuncRef.deref m.function = some id) :
    Raises.describe_mismatch search m (Item.callable id run str) s d =
      Raises.mismatchTail m s d := by
  simp only [Raises.describe_mismatch]
  rw [if_pos hsame]

/-- Variant of `describe_mismatch_same` keyed on the stored reference being
the live reference to the candidate. -/
theorem describe_mismatch_live (search : String → String → Bool) (m : Raises) {σ : Type}
    (id : Nat) (run : σ → σ × Option Exc) (str : String) (s : σ) (d : List String)
    (hlive : m.function = FuncRef.liveRef id) :
    Raises.describe_mismatch search m (Item.callable id run str) s d =
      Raises.mismatchTail m s d := by
  apply describe_mismatch_same
  rw [hlive]
  rfl

/-- Method `_call_function` never changes the stored candidate reference. -/
theorem call_function_function (search : String → String → Bool) (m : Raises) {σ : Type}
    (item : Item σ) (s : σ) :
    (Raises._call_function search m item s).1.function = m.function := by
  rw [call_function_eq]
  rcases hin : Item.invoke item s with ⟨s', oe⟩
  cases oe <;> rfl

/-- Inversion: when `_call_function` on a callable returns `True`, the
invocation raised an exception of the expected kind that also satisfies
the pattern test. -/
theorem call_function_true (search : String → String → Bool) (m : Raises) {σ : Type}
    (id : Nat) (run : σ → σ × Option Exc) (str : String) {s s2 : σ} {m2 : Raises}
    (hc : Raises._call_function search m (Item.callable id run str) s
        = (m2, s2, POut.ok true)) :
    ∃ e, run s = (s2, some e) ∧ m2 = { m with actual := some e } ∧
      isinstance e m.expected = true ∧
      (m.pattern = none ∨ ∃ p, m.pattern = some p ∧ search p e.msg = true) := by
  rw [call_function_eq] at hc
  have hinv : Item.invoke (Item.callable id run str) s = run s := rfl
  rw [hinv] at hc
  rcases hrs : run s with ⟨s', oe⟩
  rw [hrs] at hc
  cases oe with
  | none =>
    exfalso
    simp only [Prod.mk.injEq] at hc
    exact absurd hc.2.2 (by simp)
  | some e =>
    simp only [Prod.mk.injEq] at hc
    obtain ⟨hm, hs2, hr⟩ := hc
    subst hs2
    simp only [POut.ok.injEq] at hr
    by_cases hi : isinstance e m.expected = true
    · rw [if_pos hi] at hr
      refine ⟨e, rfl, hm.symm, hi, ?_⟩
      cases hp : m.pattern with
      | none => exact Or.inl rfl
      | some p =>
        rw [hp] at hr
        exact Or.inr ⟨p, rfl, hr⟩
    · rw [if_neg hi] at hr
      exact absurd hr (by simp)

/-- C1: for every callable candidate, `_matches` returns normally with a
boolean that is true iff invoking the candidate raises an exception that
is an instance of the expected kind and (the pattern is absent, or the
regex search of the pattern within the stringified exception succeeds);
it is false when nothing is raised, the kind is wrong, or the pattern is
not found. -/
theorem C1_matches_characterization (search : String → String → Bool) {σ : Type}
    (m : Raises) (id : Nat) (run : σ → σ × Option Exc) (str : String) (s : σ) :
    ∃ b : Bool,
      (Raises._matches search m (Item.callable id run str) s).2.2 = POut.ok b ∧
      (b = true ↔ ∃ e, (run s).2 = some e ∧ isinstance e m.expected = true ∧
        (m.pattern = none ∨ ∃ p, m.pattern = some p ∧ search p e.msg = true)) := by
  have hcf := call_function_eq search { m with function := FuncRef.liveRef id }
    (Item.callable id run str) s
  rcases hrs : run s with ⟨s', oe⟩
  have hin : Item.invoke (Item.callable id run str) s = (s', oe) := hrs
  rw [hin] at hcf
  simp only [Raises._matches]
  cases oe with
  | none =>
    exact ⟨false, by rw [hcf], by simp [hrs]⟩
  | some e =>
    refine ⟨_, by rw [hcf], ?_⟩
    by_cases hi : isinstance e m.expected
    · cases hp : m.pattern <;> simp [hrs, hi, hp]
    · simp [hrs, hi]

/-- C7: a non-callable candidate makes `_matches` return false at once,
with the matcher state, the world state and everything else untouched (no
invocation happens), and `describe_mismatch` appends exactly
`"<item> is not callable"` without invoking anything. -/
theorem C7_not_callable_behavior (search : String → String → Bool) {σ : Type} (m : Raises)
    (str : String) (s : σ) (d : List String) :
    Raises._matches search m (Item.notCallable str) s = (m, s, POut.ok false) ∧
    Raises.describe_mismatch search m (Item.notCallable str) s d =
      (m, s, d ++ [str ++ " is not callable"], POut.ok ()) :=
  ⟨rfl, rfl⟩

/-- C8: `calling(f).with_args(args, kwargs)` records exactly the given
positional list and named mapping on a deferred callable whose target is
still `f`, and invoking it calls `f` once with exactly those arguments,
forwarding the outcome (state change and raised exception) unmodified. -/
theorem C8_calling_with_args_call {σ α : Type}
    (f : List α → List (String × α) → σ → σ × Option Exc)
    (args : List α) (kwargs : List (String × α)) (s : σ) :
    ((calling f).with_args args kwargs).func = f ∧
    ((calling f).with_args args kwargs).args = args ∧
    ((calling f).with_args args kwargs).kwargs = kwargs ∧
    ((calling f).with_args args kwargs).call s = f args kwargs s :=
  ⟨rfl, rfl, rfl, rfl⟩

/-- C3: a candidate that raises nothing fails `_matches`, and the
subsequent `describe_mismatch` on the identical candidate appends exactly
`"No exception raised."`, changing nothing else. -/
theorem C3_no_exception_raised (search : String → String → Bool) {σ : Type} (m : Raises)
    (id : Nat) (run : σ → σ × Option Exc) (str : String) (s : σ) (d : List String)
    (hnone : (run s).2 = none) :
    (Raises._matches search m (Item.callable id run str) s).2.2 = POut.ok false ∧
    Raises.describe_mismatch search
        (Raises._matches search m (Item.callable id run str) s).1
        (Item.callable id run str)
        (Raises._matches search m (Item.callable id run str) s).2.1 d =
      ((Raises._matches search m (Item.callable id run str) s).1,
       (Raises._matches search m (Item.callable id run str) s).2.1,
       d ++ ["No exception raised."], POut.ok ()) := by
  rcases hrs : run s with ⟨s', oe⟩
  cases oe with
  | some e => rw [hrs] at hnone; exact absurd hnone (by simp)
  | none =>
    rw [matches_callable_none search m id run str hrs]
    dsimp only
    refine ⟨rfl, ?_⟩
    rw [describe_mismatch_live search { m with function := FuncRef.liveRef id, actual := none }
      id run str s' d rfl]
    rfl

/-- C4: when the raised exception has the expected kind but the supplied
pattern is not found in its text, `_matches` fails and the subsequent
`describe_mismatch` on the identical candidate appends exactly the
two-part message quoting the pattern and then the exception text. -/
theorem C4_pattern_not_found_message (search : String → String → Bool) {σ : Type}
    (m : Raises) (id : Nat) (run : σ → σ × Option Exc) (str : String) (s : σ)
    (d : List String) (e : Exc) (p : String)
    (he : (run s).2 = some e) (hi : isinstance e m.expected = true)
    (hp : m.pattern = some p) (hs : search p e.msg = false) :
    (Raises._matches search m (Item.callable id run str) s).2.2 = POut.ok false ∧
    Raises.describe_mismatch search
        (Raises._matches search m (Item.callable id run str) s).1
        (Item.callable id run str)
        (Raises._matches search m (Item.callable id run str) s).2.1 d =
      ((Raises._matches search m (Item.callable id run str) s).1,
       (Raises._matches search m (Item.callable id run str) s).2.1,
       d ++ ["Correct assertion type raised, but the expected pattern (\"" ++ p
           ++ "\") not found. ",
         "Exception message was: \"" ++ e.msg ++ "\""], POut.ok ()) := by
  rcases hrs : run s with ⟨s', oe⟩
  rw [hrs] at he
  cases oe with
  | none => exact absurd he (by simp)
  | some e0 =>
    simp only [Option.some.injEq] at he
    subst he
    rw [matches_callable_some search m id run str hrs]
    dsimp only
    constructor
    · simp [hi, hp, hs]
    · rw [describe_mismatch_live search
        { m with function := FuncRef.liveRef id, actual := some e0 } id run str s' d rfl]
      simp [Raises.mismatchTail, hi, hp]

/-- C10: when the raised exception has the expected kind and no pattern
was supplied, `describe_mismatch` on the identical candidate appends no
text at all. -/
theorem C10_expected_kind_no_pattern_silent (search : String → String → Bool) {σ : Type}
    (m : Raises) (id : Nat) (run : σ → σ × Option Exc) (str : String) (s : σ)
    (d : List String) (e : Exc)
    (he : (run s).2 = some e) (hi : isinstance e m.expected = true)
    (hp : m.pattern = none) :
    (Raises._matches search m (Item.callable id run str) s).2.2 = POut.ok true ∧
    Raises.describe_mismatch search
        (Raises._matches search m (Item.callable id run str) s).1
        (Item.callable id run str)
        (Raises._matches search m (Item.callable id run str) s).2.1 d =
      ((Raises._matches search m (Item.callable id run str) s).1,
       (Raises._matches search m (Item.callable id run str) s).2.1,
       d, POut.ok ()) := by
  rcases hrs : run s with ⟨s', oe⟩
  rw [hrs] at he
  cases oe with
  | none => exact absurd he (by simp)
  | some e0 =>
    simp only [Option.some.injEq] at he
    subst he
    rw [matches_callable_some search m id run str hrs]
    dsimp only
    constructor
    · simp [hi, hp]
    · rw [describe_mismatch_live search
        { m with function := FuncRef.liveRef id, actual := some e0 } id run str s' d rfl]
      simp [Raises.mismatchTail, hi, hp]

/-- C5: after a failing `_matches`, calling `describe_mismatch` on the
identical candidate re-invokes nothing: the candidate runs exactly once in
total (the final world state is one application of the body of the candidate),
and the already-captured `actual` is reused unchanged. -/
theorem C5_describe_mismatch_no_reinvocation (search : String → String → Bool) {σ : Type}
    (m : Raises) (id : Nat) (run : σ → σ × Option Exc) (str : String) (s : σ)
    (d : List String)
    (_hfail : (Raises._matches search m (Item.callable id run str) s).2.2 = POut.ok false) :
    (Raises._matches search m (Item.callable id run str) s).2.1 = (run s).1 ∧
    (Raises.describe_mismatch search
        (Raises._matches search m (Item.callable id run str) s).1
        (Item.callable id run str)
        (Raises._matches search m (Item.callable id run str) s).2.1 d).2.1 =
      (Raises._matches search m (Item.callable id run str) s).2.1 ∧
    (Raises.describe_mismatch search
        (Raises._matches search m (Item.callable id run str) s).1
        (Item.callable id run str)
        (Raises._matches search m (Item.callable id run str) s).2.1 d).1.actual =
      (Raises._matches search m (Item.callable id run str) s).1.actual := by
  rcases hrs : run s with ⟨s', oe⟩
  cases oe with
  | none =>
    rw [matches_callable_none search m id run str hrs]
    dsimp only
    refine ⟨rfl, ?_, ?_⟩
    · rw [describe_mismatch_live search
        { m with function := FuncRef.liveRef id, actual := none } id run str s' d rfl]
      exact (mismatchTail_frame _ _ _).2.1
    · rw [describe_mismatch_live search
        { m with function := FuncRef.liveRef id, actual := none } id run str s' d rfl]
      rw [(mismatchTail_frame _ _ _).1]
  | some e =>
    rw [matches_callable_some search m id run str hrs]
    dsimp only
    refine ⟨rfl, ?_, ?_⟩
    · rw [describe_mismatch_live search
        { m with function := FuncRef.liveRef id, actual := some e } id run str s' d rfl]
      exact (mismatchTail_frame _ _ _).2.1
    · rw [describe_mismatch_live search
        { m with function := FuncRef.liveRef id, actual := some e } id run str s' d rfl]
      rw [(mismatchTail_frame _ _ _).1]

/-- C6: every exception raised by a candidate during `_matches` (or the
re-invocation inside `describe_mismatch` / `describe_match`) is absorbed
inside the matcher: the outcome of each method is a normal return, never a
propagated exception, for every candidate and every matcher state. -/
theorem C6_exceptions_absorbed (search : String → String → Bool) {σ : Type}
    (m : Raises) (item : Item σ) (s : σ) (d : List String) :
    (∃ b, (Raises._call_function search m item s).2.2 = POut.ok b) ∧
    (∃ b, (Raises._matches search m item s).2.2 = POut.ok b) ∧
    (Raises.describe_mismatch search m item s d).2.2.2 = POut.ok () ∧
    (Raises.describe_match search m item s d).2.2.2 = POut.ok () := by
  refine ⟨?_, ?_, ?_, ?_⟩
  · obtain ⟨m', s', b, h⟩ := call_function_no_raise search m item s
    exact ⟨b, by rw [h]⟩
  · cases item with
    | notCallable str => exact ⟨false, rfl⟩
    | callable id run str =>
      obtain ⟨m', s', b, h⟩ := call_function_no_raise search
        { m with function := FuncRef.liveRef id } (Item.callable id run str) s
      exact ⟨b, by simp only [Raises._matches]; rw [h]⟩
  · cases item with
    | notCallable str => rfl
    | callable id run str =>
      simp only [Raises.describe_mismatch]
      by_cases hsame : FuncRef.deref m.function = some id
      · rw [if_pos hsame]
        exact (mismatchTail_frame _ _ _).2.2
      · rw [if_neg hsame]
        obtain ⟨m', s', b, h⟩ := call_function_no_raise search
          { m with function := FuncRef.liveRef id } (Item.callable id run str) s
        rw [h]
        cases b with
        | false => rfl
        | true => exact (mismatchTail_frame _ _ _).2.2
  · simp only [Raises.describe_match]
    obtain ⟨m', s', b, h⟩ := call_function_no_raise search m item s
    rw [h]

/-- C9: after any invocation step, `actual` holds exactly the exception
raised by the most recent invocation (or `none` if it raised nothing):
`_call_function` resets then records it, `_matches` and `describe_match`
record the outcome of the one invocation they perform, and
`describe_mismatch` either reuses the stored value (identical candidate)
or records the outcome of its re-invocation. -/
theorem C9_lastError_most_recent (search : String → String → Bool) {σ : Type}
    (m : Raises) (id : Nat) (run : σ → σ × Option Exc) (str : String) (s : σ)
    (d : List String) :
    (Raises._call_function search m (Item.callable id run str) s).1.actual = (run s).2 ∧
    (Raises._call_function search m (Item.notCallable str) s).1.actual
      = some (notCallableError str) ∧
    (Raises._matches search m (Item.callable id run str) s).1.actual = (run s).2 ∧
    (Raises._matches search m (Item.notCallable str) s).1.actual = m.actual ∧
    (Raises.describe_match search m (Item.callable id run str) s d).1.actual = (run s).2 ∧
    (FuncRef.deref m.function = some id →
      (Raises.describe_mismatch search m (Item.callable id run str) s d).1.actual
        = m.actual) ∧
    (FuncRef.deref m.function ≠ some id →
      (Raises.describe_mismatch search m (Item.callable id run str) s d).1.actual
        = (run s).2) := by
  refine ⟨call_function_actual search m _ s, call_function_actual search m _ s, ?_, rfl,
    ?_, ?_, ?_⟩
  · simp only [Raises._matches]
    exact call_function_actual search _ _ s
  · simp only [Raises.describe_match]
    rcases hcf : Raises._call_function search m (Item.callable id run str) s with ⟨m2, s2, r⟩
    have hA := call_function_actual search m (Item.callable id run str) s
    rw [hcf] at hA
    cases r <;> exact hA
  · intro hsame
    rw [describe_mismatch_same search m id run str s d hsame, (mismatchTail_frame _ _ _).1]
  · intro hdiff
    simp only [Raises.describe_mismatch]
    rw [if_neg hdiff]
    rcases hcf : Raises._call_function search { m with function := FuncRef.liveRef id }
      (Item.callable id run str) s with ⟨m2, s2, r⟩
    have hA := call_function_actual search { m with function := FuncRef.liveRef id }
      (Item.callable id run str) s
    rw [hcf] at hA
    cases r with
    | ok b =>
      cases b with
      | false => exact hA
      | true =>
        show (Raises.mismatchTail m2 s2 d).1.actual = (run s).2
        rw [(mismatchTail_frame _ _ _).1]
        exact hA
    | raised e => exact hA

/-- C2 counterexample: take a fresh matcher (stored reference absent) with
expected kind `ValueError` and pattern `"bad"`, and a candidate raising
`ValueError` whose text contains `"bad"`.  The re-invocation performed
inside `describe_mismatch` satisfies the match — the first conjunct shows
the very call `describe_mismatch` makes returns `True` — yet
`describe_mismatch` does not return without appending text: it appends the
(here misleading) pattern-not-found message, refuting the claim. -/
theorem C2_counterexample :
    (Raises._call_function substrFound
        { raises wType (some "bad") with function := FuncRef.liveRef 5 }
        (Item.callable 5 (fun (s : Unit) => (s, some wBadExc)) "f") ()).2.2
      = POut.ok true ∧
    (Raises.describe_mismatch substrFound (raises wType (some "bad"))
        (Item.callable 5 (fun (s : Unit) => (s, some wBadExc)) "f") () []).2.2.1 =
      ["Correct assertion type raised, but the expected pattern (\"bad\") not found. ",
       "Exception message was: \"this is bad input\""] :=
  ⟨rfl, rfl⟩

/-- C2 amended: when `describe_mismatch` is called with a callable
candidate whose identity differs from the referent of the stored reference (or
the reference is absent or dead), the matcher re-invokes the candidate via
the same capture logic as `matches` — exactly once, updating the stored
reference and `lastError` — and then: if the re-invocation does not
satisfy the match, it returns without appending any text; if it satisfies
the match, it falls through to the normal reporting step, which appends
nothing when no pattern was supplied and appends the pattern-not-found
message (quoting the pattern and the exception text) when a pattern was
supplied. -/
theorem C2_amended_reinvocation (search : String → String → Bool) {σ : Type}
    (m : Raises) (id : Nat) (run : σ → σ × Option Exc) (str : String) (s : σ)
    (d : List String) (m2 : Raises) (s2 : σ) (r : POut Bool)
    (hdiff : FuncRef.deref m.function ≠ some id)
    (hc : Raises._call_function search { m with function := FuncRef.liveRef id }
        (Item.callable id run str) s = (m2, s2, r)) :
    (Raises.describe_mismatch search m (Item.callable id run str) s d).1 = m2 ∧
    (Raises.describe_mismatch search m (Item.callable id run str) s d).2.1 = s2 ∧
    m2.function = FuncRef.liveRef id ∧
    m2.actual = (run s).2 ∧
    (r = POut.ok false →
      (Raises.describe_mismatch search m (Item.callable id run str) s d).2.2.1 = d) ∧
    (r = POut.ok true → m.pattern = none →
      (Raises.describe_mismatch search m (Item.callable id run str) s d).2.2.1 = d) ∧
    (∀ p, r = POut.ok true → m.pattern = some p →
      ∃ e, (run s).2 = some e ∧
        (Raises.describe_mismatch search m (Item.callable id run str) s d).2.2.1 =
          d ++ ["Correct assertion type raised, but the expected pattern (\"" ++ p
              ++ "\") not found. ",
            "Exception message was: \"" ++ e.msg ++ "\""]) := by
  have h1 : (Raises._call_function search { m with function := FuncRef.liveRef id }
      (Item.callable id run str) s).1 = m2 := by rw [hc]
  have hfun : m2.function = FuncRef.liveRef id := by
    rw [← h1, call_function_function]
  have hact : m2.actual = (run s).2 := by
    rw [← h1, call_function_actual]
    rfl
  simp only [Raises.describe_mismatch]
  rw [if_neg hdiff, hc]
  cases r with
  | raised e =>
    refine ⟨rfl, rfl, hfun, hact, ?_, ?_, ?_⟩
    · intro h; exact POut.noConfusion h
    · intro h _; exact POut.noConfusion h
    · intro p h _; exact POut.noConfusion h
  | ok b =>
    cases b with
    | false =>
      refine ⟨rfl, rfl, hfun, hact, fun _ => rfl, ?_, ?_⟩
      · intro h _
        exact absurd h (by simp)
      · intro p h _
        exact absurd h (by simp)
    | true =>
      obtain ⟨e, hre, hm2, hi, hpat⟩ :=
        call_function_true search { m with function := FuncRef.liveRef id } id run str hc
      have hi' : isinstance e m.expected = true := hi
      refine ⟨?_, ?_, hfun, hact, ?_, ?_, ?_⟩
      · show (Raises.mismatchTail m2 s2 d).1 = m2
        exact (mismatchTail_frame _ _ _).1
      · show (Raises.mismatchTail m2 s2 d).2.1 = s2
        exact (mismatchTail_frame _ _ _).2.1
      · intro h
        exact absurd h (by simp)
      · intro _ hp
        show (Raises.mismatchTail m2 s2 d).2.2.1 = d
        subst hm2
        simp [Raises.mismatchTail, hi', hp]
      · intro p _ hp
        rcases hpat with hnone | ⟨p', hp', hs'⟩
        · rw [hnone] at hp
          exact absurd hp (by simp)
        · rw [hp] at hp'
          injection hp' with hpp
          subst hpp
          refine ⟨e, by rw [hre], ?_⟩
          show (Raises.mismatchTail m2 s2 d).2.2.1 = _
          subst hm2
          simp [Raises.mismatchTail, hi', hp, hs']

/-- Witness for C3 at a concrete candidate that raises nothing. -/
theorem C3_witness :
    (Raises._matches substrFound (raises wType (some "bad"))
        (Item.callable 3 (fun (n : Nat) => (n + 1, (none : Option Exc))) "f") 0).2.2
      = POut.ok false ∧
    Raises.describe_mismatch substrFound
        (Raises._matches substrFound (raises wType (some "bad"))
          (Item.callable 3 (fun (n : Nat) => (n + 1, (none : Option Exc))) "f") 0).1
        (Item.callable 3 (fun (n : Nat) => (n + 1, (none : Option Exc))) "f")
        (Raises._matches substrFound (raises wType (some "bad"))
          (Item.callable 3 (fun (n : Nat) => (n + 1, (none : Option Exc))) "f") 0).2.1 [] =
      ({ pattern := some "bad", expected := wType, actual := none,
          function := FuncRef.liveRef 3 }, 1, ["No exception raised."], POut.ok ()) :=
  C3_no_exception_raised substrFound (raises wType (some "bad")) 3
    (fun (n : Nat) => (n + 1, (none : Option Exc))) "f" 0 [] rfl

/-- Witness for C4 at a concrete candidate raising the expected kind with
a text that misses the pattern. -/
theorem C4_witness :
    (Raises._matches substrFound (raises wType (some "bad"))
        (Item.callable 6 (fun (n : Nat) => (n + 1, some wOkExc)) "g") 0).2.2
      = POut.ok false ∧
    Raises.describe_mismatch substrFound
        (Raises._matches substrFound (raises wType (some "bad"))
          (Item.callable 6 (fun (n : Nat) => (n + 1, some wOkExc)) "g") 0).1
        (Item.callable 6 (fun (n : Nat) => (n + 1, some wOkExc)) "g")
        (Raises._matches substrFound (raises wType (some "bad"))
          (Item.callable 6 (fun (n : Nat) => (n + 1, some wOkExc)) "g") 0).2.1 [] =
      ({ pattern := some "bad", expected := wType, actual := some wOkExc,
          function := FuncRef.liveRef 6 }, 1,
        ["Correct assertion type raised, but the expected pattern (\"bad\") not found. ",
         "Exception message was: \"ok input\""], POut.ok ()) :=
  C4_pattern_not_found_message substrFound (raises wType (some "bad")) 6
    (fun (n : Nat) => (n + 1, some wOkExc)) "g" 0 [] wOkExc "bad" rfl rfl rfl rfl

/-- Witness for C10 at a concrete candidate raising the expected kind with
no pattern supplied. -/
theorem C10_witness :
    (Raises._matches substrFound (raises wType none)
        (Item.callable 8 (fun (n : Nat) => (n + 1, some wBadExc)) "h") 0).2.2
      = POut.ok true ∧
    Raises.describe_mismatch substrFound
        (Raises._matches substrFound (raises wType none)
          (Item.callable 8 (fun (n : Nat) => (n + 1, some wBadExc)) "h") 0).1
        (Item.callable 8 (fun (n : Nat) => (n + 1, some wBadExc)) "h")
        (Raises._matches substrFound (raises wType none)
          (Item.callable 8 (fun (n : Nat) => (n + 1, some wBadExc)) "h") 0).2.1 [] =
      ({ pattern := none, expected := wType, actual := some wBadExc,
          function := FuncRef.liveRef 8 }, 1, [], POut.ok ()) :=
  C10_expected_kind_no_pattern_silent substrFound (raises wType none) 8
    (fun (n : Nat) => (n + 1, some wBadExc)) "h" 0 [] wBadExc rfl rfl rfl

/-- Witness for C5 with a counting candidate (the world state counts the
invocations): across the failing `matches` plus `describe_mismatch` pair
the counter ends at exactly 1, and the captured error is reused. -/
theorem C5_witness :
    (Raises._matches substrFound (raises wType none)
        (Item.callable 2 (fun (n : Nat) => (n + 1, some wWrongExc)) "c") 0).2.1 = 1 ∧
    (Raises.describe_mismatch substrFound
        (Raises._matches substrFound (raises wType none)
          (Item.callable 2 (fun (n : Nat) => (n + 1, some wWrongExc)) "c") 0).1
        (Item.callable 2 (fun (n : Nat) => (n + 1, some wWrongExc)) "c")
        (Raises._matches substrFound (raises wType none)
          (Item.callable 2 (fun (n : Nat) => (n + 1, some wWrongExc)) "c") 0).2.1 []).2.1
      = 1 ∧
    (Raises.describe_mismatch substrFound
        (Raises._matches substrFound (raises wType none)
          (Item.callable 2 (fun (n : Nat) => (n + 1, some wWrongExc)) "c") 0).1
        (Item.callable 2 (fun (n : Nat) => (n + 1, some wWrongExc)) "c")
        (Raises._matches substrFound (raises wType none)
          (Item.callable 2 (fun (n : Nat) => (n + 1, some wWrongExc)) "c") 0).2.1 []).1.actual
      = some wWrongExc :=
  C5_describe_mismatch_no_reinvocation substrFound (raises wType none) 2
    (fun (n : Nat) => (n + 1, some wWrongExc)) "c" 0 [] rfl

/-- Witness for C9: on a fresh matcher, `describe_mismatch` records in
`actual` exactly the exception raised by its re-invocation. -/
theorem C9_witness :
    (Raises.describe_mismatch substrFound (raises wType none)
        (Item.callable 4 (fun (n : Nat) => (n + 1, some wBadExc)) "k") 0 []).1.actual
      = some wBadExc :=
  (C9_lastError_most_recent substrFound (raises wType none) 4
      (fun (n : Nat) => (n + 1, some wBadExc)) "k" 0 []).2.2.2.2.2.2 (by decide)

/-- Witness for the amended C2: on a fresh matcher whose re-invocation
does not satisfy the match (wrong kind), `describe_mismatch` appends
nothing. -/
theorem C2_amended_witness :
    (Raises.describe_mismatch substrFound (raises wType (some "bad"))
        (Item.callable 5 (fun (s : Unit) => (s, some wWrongExc)) "g") () []).2.2.1 = [] :=
  (C2_amended_reinvocation substrFound (raises wType (some "bad")) 5
      (fun (s : Unit) => (s, some wWrongExc)) "g" () []
      { pattern := some "bad", expected := wType, actual := some wWrongExc,
        function := FuncRef.liveRef 5 } () (POut.ok false)
      (by decide) rfl).2.2.2.2.1 rfl

end PyHamcrest
